import Mathlib

/-!
# Verification of the voice-chat backend core

Shallow embedding of `backend/app` (auth token handling, audio buffering,
and the WebSocket voice-chat orchestration in `main.py`), together with
proofs about the behaviour the specification claims.

Conventions of the embedding:
* Python byte strings are `List ℕ` (one entry per byte; byte values are
  never inspected by the embedded code, only lengths and concatenation).
* Python floats used for durations are modelled as exact rationals `ℚ`;
  every constant the code compares (multiples of 1/32000 against 5.0) is
  exactly representable in binary floating point at the ranges involved,
  so the comparisons agree with the source.
* Mutable objects are threaded as explicit state; the process-global
  service singletons of `main.py` live in a `ServerState` value.
* The three external pipeline stages and the remote API call inside
  `ClaudeService.get_response` are oracles (`_ → Except String _`): an
  `Except.error` value models the Python call raising.
* Outbound `websocket.send_json` calls are modelled as appending an
  `Event` to the returned event list.
-/

namespace VoiceChat

/-! ## Audio buffering (`main.py`, class `AudioBuffer`) -/

/-- `AudioBuffer.__init__`: window, sample rate, chunk list, byte counter.
`bytes_per_second` is set once in the constructor to `sample_rate * 2` and
never mutated, so it is embedded as a derived function rather than a field. -/
structure AudioBuffer where
  window_seconds : ℚ
  sample_rate : ℕ
  audio_chunks : List (List ℕ)
  total_bytes : ℕ
deriving DecidableEq

namespace AudioBuffer

/-- Constructor `AudioBuffer(window_seconds, sample_rate)`. -/
def mkBuffer (window_seconds : ℚ) (sample_rate : ℕ) : AudioBuffer :=
  { window_seconds := window_seconds
    sample_rate := sample_rate
    audio_chunks := []
    total_bytes := 0 }

/-- `self.bytes_per_second = sample_rate * 2  # 16-bit (2 bytes per sample)` -/
def bytes_per_second (b : AudioBuffer) : ℕ :=
  b.sample_rate * 2

/-- `buffer_duration` property:
`self.total_bytes / self.bytes_per_second if self.bytes_per_second else 0.0`. -/
def buffer_duration (b : AudioBuffer) : ℚ :=
  if b.bytes_per_second ≠ 0 then (b.total_bytes : ℚ) / (b.bytes_per_second : ℚ) else 0

/-- `add_chunk`: append the chunk, bump the byte count, and return whether
the accumulated duration now meets the window. -/
def add_chunk (b : AudioBuffer) (audio_data : List ℕ) : Bool × AudioBuffer :=
  let b := { b with
    audio_chunks := b.audio_chunks ++ [audio_data]
    total_bytes := b.total_bytes + audio_data.length }
  (decide (b.buffer_duration ≥ b.window_seconds), b)

/-- `is_ready`: the readiness predicate, taking the buffer by value (pure). -/
def is_ready (b : AudioBuffer) : Bool :=
  decide (b.buffer_duration ≥ b.window_seconds)

/-- `get_audio`: all buffered bytes in arrival order. -/
def get_audio (b : AudioBuffer) : List ℕ :=
  b.audio_chunks.flatten

/-- `clear`: reset chunk list and byte counter. -/
def clear (b : AudioBuffer) : AudioBuffer :=
  { b with audio_chunks := [], total_bytes := 0 }

/-- Folding `add_chunk` over a list of chunks (discarding the returned flags),
as the receive loop does. -/
def add_chunks (b : AudioBuffer) (chunks : List (List ℕ)) : AudioBuffer :=
  chunks.foldl (fun acc c => (acc.add_chunk c).2) b

end AudioBuffer

/-! ## Conversation service (`services/claude_service.py`, class `ClaudeService`) -/

/-- One entry of `conversation_history`: `{"role": ..., "content": ...}`. -/
structure HistMsg where
  role : String
  content : String
deriving DecidableEq

/-- `ClaudeService` instance state. The `Anthropic` client object carries no
state the embedded code reads, so it is not represented; the remote
`messages.create` call is passed as an oracle to `get_response`. -/
structure ClaudeService where
  api_key : String
  model : String
  conversation_history : List HistMsg
deriving DecidableEq

namespace ClaudeService

/-- `ClaudeService.__init__(api_key, model)`: fresh empty history. -/
def mkService (api_key : String) (model : String) : ClaudeService :=
  { api_key := api_key, model := model, conversation_history := [] }

/-- `add_to_history`: append, then keep only the last 20 entries. -/
def add_to_history (c : ClaudeService) (role content : String) : ClaudeService :=
  let h := c.conversation_history ++ [⟨role, content⟩]
  { c with conversation_history := if h.length > 20 then h.drop (h.length - 20) else h }

/-- `clear_history`. -/
def clear_history (c : ClaudeService) : ClaudeService :=
  { c with conversation_history := [] }

/-- `get_response(user_message)`. The remote call
`self.client.messages.create(model, max_tokens, messages=history)` is the
oracle `api`, applied to the history passed to it; `Except.error` models the
call raising. Returns the result together with the service state after the
call (Python mutates `self`). The guard
`if not user_message or not user_message.strip()` holds exactly when every
character of the message is whitespace (an empty message vacuously so),
and raises `ValueError` before the `try` block, leaving the history
untouched; an API failure is re-raised as `RuntimeError` after the user
turn was appended. -/
def get_response (c : ClaudeService) (api : List HistMsg → Except String String)
    (user_message : String) : Except String String × ClaudeService :=
  if user_message.data.all Char.isWhitespace then
    (Except.error "ValueError: User message is empty", c)
  else
    let c1 := c.add_to_history "user" user_message
    match api c1.conversation_history with
    | Except.error e => (Except.error ("RuntimeError: Claude API call failed: " ++ e), c1)
    | Except.ok response_text =>
        (Except.ok response_text, c1.add_to_history "assistant" response_text)

end ClaudeService

/-! ## Outbound events (`websocket.send_json` payloads in `main.py`) -/

/-- The structured frames the server sends. The `audio` field of a
`response` holds the raw synthesized bytes (base64 transport encoding of
them is an injective re-encoding the claims never inspect); `none` is the
JSON `null`. -/
inductive Event where
  | buffering (buffered_seconds target_seconds : ℚ)
  | transcription (text : String)
  | error (code message : String)
  | response (text : String) (audio : Option (List ℕ)) (processing_time : Option ℚ)
  | info (message : String)
  | pong
deriving DecidableEq

/-- Terminal outbound events of a processing cycle: `response` or `error`. -/
def Event.isTerminal : Event → Bool
  | Event.error _ _ => true
  | Event.response _ _ _ => true
  | _ => false

/-! ## The processing cycle (`main.py`, `_process_audio_buffer`) -/

/-- The two stateless external pipeline stages used by
`_process_audio_buffer` (`whisper.transcribe`, `tts.text_to_speech`);
an `Except.error` result models the Python call raising. -/
structure Pipeline where
  whisper : List ℕ → Except String String
  tts : String → Except String (List ℕ)

/-- `_process_audio_buffer(websocket, audio_buffer, whisper, claude, tts, email)`.
`elapsed` is the wall-clock time `time.time() - start_time` attached to a
full-success response. Returns (events sent, audio buffer after, claude
service after). -/
def process_audio_buffer (pipe : Pipeline) (api : List HistMsg → Except String String)
    (audio_buffer : AudioBuffer) (claude : ClaudeService) (elapsed : ℚ) :
    List Event × AudioBuffer × ClaudeService :=
  let buffered_audio := audio_buffer.get_audio
  let audio_buffer := audio_buffer.clear
  match pipe.whisper buffered_audio with
  | Except.error _ =>
      ([Event.error "transcription_failed" "Failed to transcribe audio"],
       audio_buffer, claude)
  | Except.ok transcription =>
    match claude.get_response api transcription with
    | (Except.error _, claude) =>
        ([Event.transcription transcription,
          Event.error "claude_failed" "AI response failed"],
         audio_buffer, claude)
    | (Except.ok response_text, claude) =>
      match pipe.tts response_text with
      | Except.error _ =>
          ([Event.transcription transcription,
            Event.response response_text none none],
           audio_buffer, claude)
      | Except.ok audio_response =>
          ([Event.transcription transcription,
            Event.response response_text (some audio_response) (some elapsed)],
           audio_buffer, claude)

/-! ## JWT handling (`auth.py`, class `TokenManager`)

A well-formed signed token is embedded as its payload plus the secret it
was signed with; `jwt.decode(token, secret, algorithms=[HS256])` checks the
signature (secret equality) and then the `exp` claim against the current
time.  PyJWT raises `InvalidSignatureError` (a subclass of
`InvalidTokenError`) on a signature mismatch and `ExpiredSignatureError`
once the signature is valid but the expiry instant is in the past.  Times
are integer Unix seconds `ℤ`; the claims under verification only concern
expiries strictly in the past, where every leeway convention agrees. -/

/-- Payload of a token as built by `create_access_token` /
`create_refresh_token`.  The source field `type` (access / refresh) is
named `typ` here (`type` is not a usable field name in Lean). -/
structure TokenPayload where
  sub : String
  name : String
  picture : Option String
  exp : ℤ
  typ : String
deriving DecidableEq

/-- A structurally well-formed JWT: payload plus the signing secret used to
produce its signature. -/
structure SignedToken where
  payload : TokenPayload
  signedWith : String
deriving DecidableEq

/-- Failure causes of `jwt.decode` reachable on well-formed tokens. -/
inductive JwtError where
  | expired
  | invalidSignature
deriving DecidableEq

/-- `jwt.decode(token, secret, algorithms=[HS256])` at time `now`:
signature first, then expiry. -/
def jwt_decode (tok : SignedToken) (secret : String) (now : ℤ) :
    Except JwtError TokenPayload :=
  if tok.signedWith ≠ secret then Except.error JwtError.invalidSignature
  else if tok.payload.exp < now then Except.error JwtError.expired
  else Except.ok tok.payload

/-- The signing secrets configured at verification time
(`config.jwt_secret`, `config.jwt_secret_previous`). -/
structure KeyRing where
  jwt_secret : String
  jwt_secret_previous : Option String
deriving DecidableEq

namespace TokenManager

/-- The loop body of `TokenManager._decode`: walk the secret list; on
`ExpiredSignatureError` re-raise immediately, on `InvalidTokenError`
remember it and try the next secret; once the list is exhausted re-raise
the last exception. -/
def decodeGo (tok : SignedToken) (now : ℤ) :
    List String → JwtError → Except JwtError TokenPayload
  | [], last_exc => Except.error last_exc
  | secret :: rest, last_exc =>
    match jwt_decode tok secret now with
    | Except.ok payload => Except.ok payload
    | Except.error JwtError.expired => Except.error JwtError.expired
    | Except.error e =>
        -- the loop keeps the new exception and continues
        let _ := last_exc
        decodeGo tok now rest e

/-- `TokenManager._decode`: try the current secret, then the previous one
if configured.  (On a singleton list the initial `last_exc` of the Python
code is never read before being set, so any seed is faithful; we seed with
`invalidSignature`, the only `InvalidTokenError` reachable on well-formed
tokens.) -/
def decode (ring : KeyRing) (tok : SignedToken) (now : ℤ) :
    Except JwtError TokenPayload :=
  let secrets := [ring.jwt_secret] ++
    (match ring.jwt_secret_previous with
     | some prev => [prev]
     | none => [])
  decodeGo tok now secrets JwtError.invalidSignature

/-- The `HTTPException` details raised by `TokenManager._verify_token`. -/
inductive VerifyError where
  | invalidTokenType
  | tokenMissingSubject
  | tokenExpired
  | invalidToken
deriving DecidableEq

/-- `TokenManager._verify_token(token, expected_type)`: decode, then check
the `type` claim, then a non-empty `sub` (a missing or empty subject is
falsy).  The two `HTTPException`s raised inside the `try` block are not
caught by the `jwt.*` handlers and propagate as-is. -/
def verifyToken (ring : KeyRing) (tok : SignedToken) (now : ℤ)
    (expected_type : String) : Except VerifyError TokenPayload :=
  match decode ring tok now with
  | Except.error JwtError.expired => Except.error VerifyError.tokenExpired
  | Except.error JwtError.invalidSignature => Except.error VerifyError.invalidToken
  | Except.ok payload =>
    if payload.typ ≠ expected_type then Except.error VerifyError.invalidTokenType
    else if payload.sub = "" then Except.error VerifyError.tokenMissingSubject
    else Except.ok payload

/-- `verify_access_token`: verify with `expected_type="access"` and return
the subject (email). -/
def verify_access_token (ring : KeyRing) (tok : SignedToken) (now : ℤ) :
    Except VerifyError String :=
  (verifyToken ring tok now "access").map (·.sub)

end TokenManager

/-! ## Process-global service singletons (`main.py`, `get_claude_service`)

`_whisper_service`, `_claude_service`, `_tts_service` are module-level
globals, created lazily on first use and shared by every connection of the
process.  Only the Claude service carries state the claims inspect. -/

/-- Process-wide mutable state: the lazily initialised `_claude_service`. -/
structure ServerState where
  claude_service : Option ClaudeService
deriving DecidableEq

/-- `get_claude_service()`: return the existing instance, or create one
from the process configuration (`config.claude_api_key`,
`config.claude_model`) and store it in the global. -/
def get_claude_service (cfg_api_key cfg_model : String) (s : ServerState) :
    ClaudeService × ServerState :=
  match s.claude_service with
  | some c => (c, s)
  | none =>
      let c := ClaudeService.mkService cfg_api_key cfg_model
      (c, { claude_service := some c })

/-! ## WebSocket endpoint (`main.py`, `websocket_voice_chat`)

Inbound frames after `accept()` are either binary (`message["bytes"]`),
text (`message["text"]`), or a disconnect.  JSON payloads of text frames
are modelled with a small JSON value type; `json.loads` is the oracle
`parseJson : String → Option Json` (`none` = `JSONDecodeError`), and the
JWT wire format is the oracle `parseToken : String → Option SignedToken`
(`none` = a string PyJWT rejects as malformed, an `InvalidTokenError`). -/

/-- JSON values as far as the endpoint inspects them. -/
inductive Json where
  | obj (fields : List (String × Json))
  | str (s : String)
  | arr (elems : List Json)

/-- `dict.get(key)` on a parsed JSON object: with duplicate keys
`json.loads` keeps the last occurrence, so lookup scans from the right. -/
def Json.get (fields : List (String × Json)) (key : String) : Option Json :=
  (fields.reverse.find? (fun kv => kv.1 = key)).map (·.2)

/-- Python truthiness of the JSON values above (`if not token`). -/
def Json.truthy : Json → Bool
  | Json.obj fields => !fields.isEmpty
  | Json.str s => !(s = "")
  | Json.arr elems => !elems.isEmpty

/-- One inbound WebSocket message as returned by `websocket.receive()`. -/
inductive Frame where
  | binary (data : List ℕ)
  | text (data : String)
  | disconnect
deriving DecidableEq

/-- Close codes the endpoint uses. -/
inductive CloseCode where
  | policyViolation  -- WS_1008_POLICY_VIOLATION
  | serverError      -- WS_1011_SERVER_ERROR
deriving DecidableEq

/-- Outcome of the auth handshake on the first message. -/
inductive HandshakeResult where
  | closed (code : CloseCode) (reason : Option String)
  | disconnected
  | authenticated (email : String)
deriving DecidableEq

/-- The handshake of `websocket_voice_chat` (lines 420–437): await the
first message via `receive_json`, extract `token`, verify it.

* A binary first frame makes `receive_json` raise `KeyError` on
  `message["text"]`; unparseable text raises `JSONDecodeError`; a parsed
  non-dict makes `auth_data.get` raise `AttributeError`.  All three are
  only caught by the outer `except Exception` (line 520), which closes
  with `WS_1011_SERVER_ERROR, reason="Internal error"`.
* A falsy `token` (absent key, `None`, empty string/list/dict) closes
  with `WS_1008_POLICY_VIOLATION, reason="No token"`.
* A truthy non-string `token` (a non-empty object or array) makes PyJWT
  raise `DecodeError("Invalid token type...")` — a subclass of
  `InvalidTokenError` — for each secret, so `_decode` re-raises it and
  `_verify_token` converts it to `HTTPException`, closing with
  `WS_1008_POLICY_VIOLATION, reason="Invalid token"`.
* A string token that is malformed or fails verification likewise raises
  `HTTPException`, closing with `WS_1008_POLICY_VIOLATION,
  reason="Invalid token"`.
* A disconnect raises `WebSocketDisconnect`, caught at line 518 with no
  close call. -/
def websocket_auth (parseJson : String → Option Json)
    (parseToken : String → Option SignedToken)
    (ring : KeyRing) (now : ℤ) (first : Frame) : HandshakeResult :=
  match first with
  | Frame.disconnect => HandshakeResult.disconnected
  | Frame.binary _ =>
      HandshakeResult.closed CloseCode.serverError (some "Internal error")
  | Frame.text s =>
    match parseJson s with
    | none => HandshakeResult.closed CloseCode.serverError (some "Internal error")
    | some (Json.str _) =>
        HandshakeResult.closed CloseCode.serverError (some "Internal error")
    | some (Json.arr _) =>
        HandshakeResult.closed CloseCode.serverError (some "Internal error")
    | some (Json.obj fields) =>
      match Json.get fields "token" with
      | none => HandshakeResult.closed CloseCode.policyViolation (some "No token")
      | some tokenVal =>
        if !tokenVal.truthy then
          HandshakeResult.closed CloseCode.policyViolation (some "No token")
        else
          match tokenVal with
          | Json.str t =>
            match parseToken t with
            | none =>
                HandshakeResult.closed CloseCode.policyViolation (some "Invalid token")
            | some tok =>
              match TokenManager.verify_access_token ring tok now with
              | Except.error _ =>
                  HandshakeResult.closed CloseCode.policyViolation (some "Invalid token")
              | Except.ok email => HandshakeResult.authenticated email
          | _ => HandshakeResult.closed CloseCode.policyViolation (some "Invalid token")

/-- Per-connection state of the voice-chat loop: the connection's
`audio_buffer` and its (aliased, process-global) Claude service. -/
structure LoopState where
  audio_buffer : AudioBuffer
  claude : ClaudeService
deriving DecidableEq

/-- Result of handling one inbound frame in the `while True` loop. -/
inductive StepResult where
  | next (events : List Event) (st : LoopState)
  | closed (events : List Event) (code : Option CloseCode)
deriving DecidableEq

/-- One iteration of the `while True` receive loop while the session is
active (lines 456–516).

* A disconnect message breaks the loop with no close call.
* A non-empty binary frame is buffered; if the buffer is then ready a
  processing cycle runs, otherwise a `buffering` progress event is sent.
  An empty binary frame falls through both branches (both `message`
  checks are falsy) and is ignored.
* A non-empty text frame is parsed as JSON.  `JSONDecodeError` is caught
  and only logged — the loop continues.  A parsed non-dict raises
  `AttributeError` at `text_data.get`, caught only by the outer
  `except Exception`, which closes `WS_1011_SERVER_ERROR` and breaks.
  `end_audio` flushes a non-empty buffer through a processing cycle (an
  empty one yields an `info` event); `ping` yields `pong`; anything else
  is logged and ignored. -/
def voice_chat_step (pipe : Pipeline) (api : List HistMsg → Except String String)
    (elapsed : ℚ) (parseJson : String → Option Json)
    (st : LoopState) (f : Frame) : StepResult :=
  match f with
  | Frame.disconnect => StepResult.closed [] none
  | Frame.binary data =>
    if data.isEmpty then StepResult.next [] st
    else
      let (_, audio_buffer) := st.audio_buffer.add_chunk data
      if audio_buffer.is_ready then
        let (events, audio_buffer, claude) :=
          process_audio_buffer pipe api audio_buffer st.claude elapsed
        StepResult.next events ⟨audio_buffer, claude⟩
      else
        StepResult.next
          [Event.buffering audio_buffer.buffer_duration audio_buffer.window_seconds]
          ⟨audio_buffer, st.claude⟩
  | Frame.text s =>
    if s = "" then StepResult.next [] st
    else
      match parseJson s with
      | none => StepResult.next [] st
      | some (Json.str _) => StepResult.closed [] (some CloseCode.serverError)
      | some (Json.arr _) => StepResult.closed [] (some CloseCode.serverError)
      | some (Json.obj fields) =>
        let msg_type := match Json.get fields "type" with
          | some (Json.str t) => t
          | _ => ""
        if msg_type = "end_audio" then
          if st.audio_buffer.buffer_duration > 0 then
            let (events, audio_buffer, claude) :=
              process_audio_buffer pipe api st.audio_buffer st.claude elapsed
            StepResult.next events ⟨audio_buffer, claude⟩
          else
            StepResult.next [Event.info "No audio to process"] st
        else if msg_type = "ping" then
          StepResult.next [Event.pong] st
        else
          StepResult.next [] st

/-- The receive loop over a finite inbound frame sequence.  Returns the
events sent, the final loop state, and the close code if the loop closed
the socket (`none`: client disconnect or input exhausted with the
connection still open). -/
def voice_chat_loop (pipe : Pipeline) (api : List HistMsg → Except String String)
    (elapsed : ℚ) (parseJson : String → Option Json) :
    LoopState → List Frame → List Event × LoopState × Option CloseCode
  | st, [] => ([], st, none)
  | st, f :: rest =>
    match voice_chat_step pipe api elapsed parseJson st f with
    | StepResult.next events st =>
        let (events2, st2, code) := voice_chat_loop pipe api elapsed parseJson st rest
        (events ++ events2, st2, code)
    | StepResult.closed events code => (events, st, code)

/-- The whole endpoint on one connection: handshake on the first frame,
then the receive loop on the remaining frames with a fresh
`AudioBuffer(window_seconds=5.0)` (default `sample_rate=16000`) and the
process-global Claude service; the updated service is visible to later
connections through the returned `ServerState`.  (Origin checking and
service-initialisation failure are outside the embedded claims; the
`get_whisper_service` / `get_tts_service` singletons are stateless here
and folded into `pipe`.) -/
def websocket_voice_chat (parseJson : String → Option Json)
    (parseToken : String → Option SignedToken) (ring : KeyRing) (now : ℤ)
    (pipe : Pipeline) (api : List HistMsg → Except String String) (elapsed : ℚ)
    (cfg_api_key cfg_model : String) (server : ServerState)
    (first : Frame) (rest : List Frame) :
    List Event × Option CloseCode × ServerState :=
  match websocket_auth parseJson parseToken ring now first with
  | HandshakeResult.closed code _ => ([], some code, server)
  | HandshakeResult.disconnected => ([], none, server)
  | HandshakeResult.authenticated _ =>
      let (claude, server) := get_claude_service cfg_api_key cfg_model server
      let st : LoopState := ⟨AudioBuffer.mkBuffer 5 16000, claude⟩
      let (events, st, code) := voice_chat_loop pipe api elapsed parseJson st rest
      (events, code, { server with claude_service := some st.claude })

/-! ## Concrete fixtures for counterexamples and witnesses

A two-frame conversation: one small binary audio chunk, then an
`end_audio` flush, against stages that always succeed. -/

/-- Parse oracle knowing the two structured payloads used in the runs. -/
def pjFix : String → Option Json := fun s =>
  if s = "AUTH" then some (Json.obj [("token", Json.str "T")])
  else if s = "FLUSH" then some (Json.obj [("type", Json.str "end_audio")])
  else none

/-- A valid, unexpired access token signed with the current secret. -/
def tokFix : SignedToken := ⟨⟨"u@example.com", "", none, 100, "access"⟩, "sec"⟩

/-- Token-string oracle mapping every wire string to `tokFix`. -/
def ptFix : String → Option SignedToken := fun _ => some tokFix

/-- Single-secret key ring matching `tokFix`. -/
def ringFix : KeyRing := ⟨"sec", none⟩

/-- Stages that always succeed. -/
def pipeFix : Pipeline := ⟨fun _ => Except.ok "hello", fun _ => Except.ok [1]⟩

/-- Generation API that always replies `"reply"`. -/
def apiFix : List HistMsg → Except String String := fun _ => Except.ok "reply"

/-- The audio buffer after the 2-byte chunk was added to a fresh buffer. -/
def bufFix : AudioBuffer := ⟨5, 16000, [[0, 0]], 2⟩

/-! ## Helper lemmas -/

theorem add_chunks_cons (b : AudioBuffer) (c : List ℕ) (cs : List (List ℕ)) :
    b.add_chunks (c :: cs) = ((b.add_chunk c).2).add_chunks cs := rfl

theorem add_chunks_total_bytes (chunks : List (List ℕ)) (b : AudioBuffer) :
    (b.add_chunks chunks).total_bytes = b.total_bytes + (chunks.map List.length).sum := by
  induction chunks generalizing b with
  | nil => simp [AudioBuffer.add_chunks]
  | cons c cs ih =>
      rw [add_chunks_cons, ih]
      simp [AudioBuffer.add_chunk]
      ring

theorem add_chunks_window (chunks : List (List ℕ)) (b : AudioBuffer) :
    (b.add_chunks chunks).window_seconds = b.window_seconds := by
  induction chunks generalizing b with
  | nil => rfl
  | cons c cs ih => rw [add_chunks_cons, ih]; rfl

theorem add_chunks_sample_rate (chunks : List (List ℕ)) (b : AudioBuffer) :
    (b.add_chunks chunks).sample_rate = b.sample_rate := by
  induction chunks generalizing b with
  | nil => rfl
  | cons c cs ih => rw [add_chunks_cons, ih]; rfl

/-- For the 16 kHz / 5 s configuration, readiness is exactly a byte-count
threshold of 160000 bytes. -/
theorem is_ready_iff_total (b : AudioBuffer) (hw : b.window_seconds = 5)
    (hr : b.sample_rate = 16000) :
    b.is_ready = decide (160000 ≤ b.total_bytes) := by
  unfold AudioBuffer.is_ready AudioBuffer.buffer_duration AudioBuffer.bytes_per_second
  rw [hw, hr]
  rw [decide_eq_decide]
  norm_num
  rw [le_div_iff₀ (by norm_num : (0 : ℚ) < 32000)]
  constructor <;> intro h <;> exact_mod_cast h

/-! ## Claim theorems -/

/-- C8: with sample rate 16 kHz (byte-rate 32,000 B/s) and a 5.0 s window,
chunks totalling 159,999 bytes leave the accumulator not ready, one more
byte makes it ready, and `is_ready` computes the same predicate as the
value `add_chunk` returns (on the buffer `add_chunk` produced; `is_ready`
is a pure function of the buffer and mutates nothing). -/
theorem audio_buffer_window_boundary :
    (∀ chunks : List (List ℕ), (chunks.map List.length).sum = 159999 →
      ((AudioBuffer.mkBuffer 5 16000).add_chunks chunks).is_ready = false) ∧
    (∀ (chunks : List (List ℕ)) (extra : List ℕ),
      (chunks.map List.length).sum = 159999 → extra.length = 1 →
      (((AudioBuffer.mkBuffer 5 16000).add_chunks chunks).add_chunk extra).1 = true) ∧
    (∀ (b : AudioBuffer) (c : List ℕ),
      (b.add_chunk c).1 = ((b.add_chunk c).2).is_ready) := by
  refine ⟨?_, ?_, fun b c => rfl⟩
  · intro chunks h
    rw [is_ready_iff_total _ (add_chunks_window ..) (add_chunks_sample_rate ..),
      add_chunks_total_bytes, h]
    decide
  · intro chunks extra h hx
    have h2 : ((((AudioBuffer.mkBuffer 5 16000).add_chunks chunks).add_chunk extra).2)
        = (AudioBuffer.mkBuffer 5 16000).add_chunks (chunks ++ [extra]) := by
      unfold AudioBuffer.add_chunks
      rw [List.foldl_append]
      rfl
    show (((AudioBuffer.mkBuffer 5 16000).add_chunks chunks).add_chunk extra).2.is_ready
      = true
    rw [h2, is_ready_iff_total _ (add_chunks_window ..) (add_chunks_sample_rate ..),
      add_chunks_total_bytes]
    simp [h, hx]

/-- C8 witness: the boundary at one concrete chunk sequence. -/
theorem audio_buffer_window_boundary_witness :
    ((AudioBuffer.mkBuffer 5 16000).add_chunks [List.replicate 159999 0]).is_ready
      = false ∧
    (((AudioBuffer.mkBuffer 5 16000).add_chunks
        [List.replicate 159999 0]).add_chunk [0]).1 = true :=
  have hsum : (List.map List.length [List.replicate 159999 (0 : ℕ)]).sum = 159999 := by
    rw [List.map_cons, List.map_nil, List.length_replicate, List.sum_cons, List.sum_nil, Nat.add_zero]
  ⟨audio_buffer_window_boundary.1 [List.replicate 159999 0] hsum,
   audio_buffer_window_boundary.2.1 [List.replicate 159999 0] [0] hsum rfl⟩

/-- C9: every processing cycle leaves the accumulator equal to its cleared
form — which is exactly a freshly constructed accumulator of the same
configuration — so a post-cycle (or post-drain) `add_chunk` behaves as on
a fresh accumulator. -/
theorem process_cycle_clears_buffer
    (pipe : Pipeline) (api : List HistMsg → Except String String)
    (b : AudioBuffer) (claude : ClaudeService) (elapsed : ℚ) :
    (process_audio_buffer pipe api b claude elapsed).2.1 = b.clear ∧
    b.clear = AudioBuffer.mkBuffer b.window_seconds b.sample_rate ∧
    ∀ c : List ℕ, b.clear.add_chunk c
      = (AudioBuffer.mkBuffer b.window_seconds b.sample_rate).add_chunk c := by
  refine ⟨?_, rfl, fun c => rfl⟩
  unfold process_audio_buffer
  cases h1 : pipe.whisper b.get_audio with
  | error e => simp only [h1]
  | ok t =>
    simp only [h1]
    cases h2 : claude.get_response api t with
    | mk r c2 =>
      cases r with
      | error e => simp only [h2]
      | ok rt =>
        simp only [h2]
        cases h3 : pipe.tts rt with
        | error e => simp only [h3]
        | ok audio => simp only [h3]

/-- C1: every invocation of the processing cycle emits exactly one
terminal outbound event (`response` or `error`), and the intermediate
`transcription` event is not terminal. -/
theorem process_cycle_exactly_one_terminal
    (pipe : Pipeline) (api : List HistMsg → Except String String)
    (b : AudioBuffer) (claude : ClaudeService) (elapsed : ℚ) :
    ((process_audio_buffer pipe api b claude elapsed).1.countP Event.isTerminal) = 1 ∧
    ∀ t : String, Event.isTerminal (Event.transcription t) = false := by
  refine ⟨?_, fun t => rfl⟩
  unfold process_audio_buffer
  cases h1 : pipe.whisper b.get_audio with
  | error e => simp only [h1]; rfl
  | ok t =>
    simp only [h1]
    cases h2 : claude.get_response api t with
    | mk r c2 =>
      cases r with
      | error e => simp only [h2]; rfl
      | ok rt =>
        simp only [h2]
        cases h3 : pipe.tts rt with
        | error e => simp only [h3]; rfl
        | ok audio => simp only [h3]; rfl

/-- C6: when transcription and generation succeed and synthesis fails, the
cycle sends the intermediate transcription followed by a single terminal
`response` event carrying the generated text and a null audio field — and
no `error` event. -/
theorem synthesis_failure_degrades_to_text
    (pipe : Pipeline) (api : List HistMsg → Except String String)
    (b : AudioBuffer) (claude : ClaudeService) (elapsed : ℚ)
    (t r e : String)
    (h1 : pipe.whisper b.get_audio = Except.ok t)
    (h2 : (claude.get_response api t).1 = Except.ok r)
    (h3 : pipe.tts r = Except.error e) :
    (process_audio_buffer pipe api b claude elapsed).1 =
      [Event.transcription t, Event.response r none none] ∧
    ∀ code msg, Event.error code msg ∉ (process_audio_buffer pipe api b claude elapsed).1 := by
  have hev : (process_audio_buffer pipe api b claude elapsed).1 =
      [Event.transcription t, Event.response r none none] := by
    unfold process_audio_buffer
    simp only [h1]
    cases hgr : claude.get_response api t with
    | mk res c2 =>
      rw [hgr] at h2
      simp only at h2
      subst h2
      simp only [hgr, h3]
  refine ⟨hev, fun code msg => ?_⟩
  rw [hev]
  simp

/-- C6 witness: concrete pipeline where only synthesis fails. -/
theorem synthesis_failure_degrades_to_text_witness :
    (process_audio_buffer
        ⟨fun _ => Except.ok "hello", fun _ => Except.error "tts down"⟩
        (fun _ => Except.ok "hi there")
        (AudioBuffer.mkBuffer 5 16000) (ClaudeService.mkService "k" "m") 0).1 =
      [Event.transcription "hello", Event.response "hi there" none none] :=
  (synthesis_failure_degrades_to_text
    ⟨fun _ => Except.ok "hello", fun _ => Except.error "tts down"⟩
    (fun _ => Except.ok "hi there")
    (AudioBuffer.mkBuffer 5 16000) (ClaudeService.mkService "k" "m") 0
    "hello" "hi there" "tts down" rfl rfl rfl).1

/-- C10: if the message is non-empty (so the API call is reached) and the
API call raises, `get_response` propagates the failure while leaving the
history in its mutated state: the user turn was appended before the call
and is not removed, so the history ends in a user entry with no matching
assistant reply. -/
theorem get_response_failure_leaves_user_turn
    (c : ClaudeService) (api : List HistMsg → Except String String)
    (msg e : String)
    (hmsg : ¬ msg.data.all Char.isWhitespace = true)
    (hapi : api ((c.add_to_history "user" msg).conversation_history) = Except.error e) :
    (c.get_response api msg).2 = c.add_to_history "user" msg ∧
    (∃ rest, (c.get_response api msg).2.conversation_history
      = rest ++ [⟨"user", msg⟩]) ∧
    ∃ err, (c.get_response api msg).1 = Except.error err := by
  have hres : c.get_response api msg =
      (Except.error ("RuntimeError: Claude API call failed: " ++ e),
       c.add_to_history "user" msg) := by
    unfold ClaudeService.get_response
    rw [if_neg hmsg]
    simp only [hapi]
  refine ⟨by rw [hres], ?_, ⟨_, by rw [hres]⟩⟩
  rw [hres]
  unfold ClaudeService.add_to_history
  simp only
  by_cases hlen : (c.conversation_history ++ [(⟨"user", msg⟩ : HistMsg)]).length > 20
  · rw [if_pos hlen]
    refine ⟨(c.conversation_history.drop
      ((c.conversation_history ++ [(⟨"user", msg⟩ : HistMsg)]).length - 20)), ?_⟩
    rw [List.drop_append_of_le_length
      (by simp only [List.length_append, List.length_singleton] at hlen ⊢; omega)]
  · rw [if_neg hlen]
    exact ⟨c.conversation_history, rfl⟩

/-- C10 witness: a concrete service whose API call fails. -/
theorem get_response_failure_leaves_user_turn_witness :
    ((ClaudeService.mkService "k" "m").get_response (fun _ => Except.error "boom") "hi").2
      = (ClaudeService.mkService "k" "m").add_to_history "user" "hi" ∧
    ∃ rest, ((ClaudeService.mkService "k" "m").get_response
        (fun _ => Except.error "boom") "hi").2.conversation_history
      = rest ++ [⟨"user", "hi"⟩] :=
  have h := get_response_failure_leaves_user_turn (ClaudeService.mkService "k" "m")
    (fun _ => Except.error "boom") "hi" "boom" (by decide) rfl
  ⟨h.1, h.2.1⟩

theorem decodeGo_cons (tok : SignedToken) (now : ℤ) (s : String)
    (rest : List String) (last : JwtError) :
    TokenManager.decodeGo tok now (s :: rest) last =
      match jwt_decode tok s now with
      | Except.ok p => Except.ok p
      | Except.error JwtError.expired => Except.error JwtError.expired
      | Except.error e => TokenManager.decodeGo tok now rest e := rfl

theorem decodeGo_of_not_mismatch (tok : SignedToken) (now : ℤ) (s : String)
    (rest : List String) (last : JwtError)
    (h : jwt_decode tok s now ≠ Except.error JwtError.invalidSignature) :
    TokenManager.decodeGo tok now (s :: rest) last = jwt_decode tok s now := by
  rw [decodeGo_cons]
  cases hd : jwt_decode tok s now with
  | ok p => rfl
  | error e =>
    cases e with
    | expired => rfl
    | invalidSignature => exact absurd hd h

theorem decodeGo_of_mismatch (tok : SignedToken) (now : ℤ) (s : String)
    (rest : List String) (last : JwtError)
    (h : jwt_decode tok s now = Except.error JwtError.invalidSignature) :
    TokenManager.decodeGo tok now (s :: rest) last
      = TokenManager.decodeGo tok now rest JwtError.invalidSignature := by
  rw [decodeGo_cons, h]

theorem decode_eq_go (ring : KeyRing) (tok : SignedToken) (now : ℤ) :
    TokenManager.decode ring tok now =
      TokenManager.decodeGo tok now
        (ring.jwt_secret ::
          (match ring.jwt_secret_previous with
           | some prev => [prev]
           | none => [])) JwtError.invalidSignature := rfl

/-- C5: a credential signed with either ring secret whose expiry is in the
past decodes to `Expired` (part 1); an expiry failure against the current
secret is final, never retried against any configured previous secret
(part 2); decoding tries the current secret first — whenever the current
secret does not yield a signature mismatch its verdict is the result
(part 3) — and the previous secret is consulted exactly on a signature
mismatch (part 4). -/
theorem expired_token_never_retried :
    (∀ (ring : KeyRing) (tok : SignedToken) (now : ℤ),
      (tok.signedWith = ring.jwt_secret ∨ ring.jwt_secret_previous = some tok.signedWith) →
      tok.payload.exp < now →
      TokenManager.decode ring tok now = Except.error JwtError.expired) ∧
    (∀ (ring : KeyRing) (tok : SignedToken) (now : ℤ),
      jwt_decode tok ring.jwt_secret now = Except.error JwtError.expired →
      ∀ prev : Option String,
        TokenManager.decode { ring with jwt_secret_previous := prev } tok now
          = Except.error JwtError.expired) ∧
    (∀ (ring : KeyRing) (tok : SignedToken) (now : ℤ),
      jwt_decode tok ring.jwt_secret now ≠ Except.error JwtError.invalidSignature →
      TokenManager.decode ring tok now = jwt_decode tok ring.jwt_secret now) ∧
    (∀ (ring : KeyRing) (tok : SignedToken) (now : ℤ) (prev : String),
      jwt_decode tok ring.jwt_secret now = Except.error JwtError.invalidSignature →
      ring.jwt_secret_previous = some prev →
      TokenManager.decode ring tok now = jwt_decode tok prev now) := by
  have hcur : ∀ (ring : KeyRing) (tok : SignedToken) (now : ℤ),
      jwt_decode tok ring.jwt_secret now ≠ Except.error JwtError.invalidSignature →
      TokenManager.decode ring tok now = jwt_decode tok ring.jwt_secret now := by
    intro ring tok now h
    rw [decode_eq_go, decodeGo_of_not_mismatch _ _ _ _ _ h]
  have hprev : ∀ (ring : KeyRing) (tok : SignedToken) (now : ℤ) (prev : String),
      jwt_decode tok ring.jwt_secret now = Except.error JwtError.invalidSignature →
      ring.jwt_secret_previous = some prev →
      TokenManager.decode ring tok now = jwt_decode tok prev now := by
    intro ring tok now prev h hp
    rw [decode_eq_go, hp, decodeGo_of_mismatch _ _ _ _ _ h]
    by_cases hd : jwt_decode tok prev now = Except.error JwtError.invalidSignature
    · rw [decodeGo_of_mismatch _ _ _ _ _ hd, hd]
      rfl
    · rw [decodeGo_of_not_mismatch _ _ _ _ _ hd]
  refine ⟨?_, ?_, hcur, hprev⟩
  · intro ring tok now hsig hexp
    by_cases hc : tok.signedWith = ring.jwt_secret
    · have hd : jwt_decode tok ring.jwt_secret now = Except.error JwtError.expired := by
        unfold jwt_decode
        rw [if_neg (by simp [hc]), if_pos hexp]
      rw [hcur ring tok now (by rw [hd]; simp), hd]
    · rcases hsig with hc2 | hp
      · exact absurd hc2 hc
      · have hd : jwt_decode tok ring.jwt_secret now
            = Except.error JwtError.invalidSignature := by
          unfold jwt_decode
          rw [if_pos (by simp [hc])]
        rw [hprev ring tok now tok.signedWith hd hp]
        unfold jwt_decode
        rw [if_neg (by simp), if_pos hexp]
  · intro ring tok now hd prev
    have hd2 : jwt_decode tok ({ ring with jwt_secret_previous := prev } : KeyRing).jwt_secret now
        = Except.error JwtError.expired := hd
    rw [hcur _ tok now (by rw [hd2]; simp), hd2]

/-- C5 witness: an expired credential signed with the previous secret of a
two-secret ring decodes to `Expired`. -/
theorem expired_token_never_retried_witness :
    TokenManager.decode ⟨"cur", some "old"⟩
      ⟨⟨"a@b.c", "", none, 0, "access"⟩, "old"⟩ 10 = Except.error JwtError.expired :=
  expired_token_never_retried.1 ⟨"cur", some "old"⟩
    ⟨⟨"a@b.c", "", none, 0, "access"⟩, "old"⟩ 10 (Or.inr rfl) (by decide)

/-- C3 counterexample: a cycle with successful transcription and failing
generation emits its single terminal error event with code field
`claude_failed` — not `generation_failed` as claimed. -/
theorem generation_error_code_counterexample :
    (process_audio_buffer
        ⟨fun _ => Except.ok "hi", fun _ => Except.ok []⟩
        (fun _ => Except.error "api down")
        (AudioBuffer.mkBuffer 5 16000) (ClaudeService.mkService "k" "m") 0).1 =
      [Event.transcription "hi", Event.error "claude_failed" "AI response failed"] ∧
    "claude_failed" ≠ "generation_failed" := by
  refine ⟨rfl, by decide⟩

/-- C3 amended: if generation fails after a successful transcription, the
cycle emits exactly one terminal error event, its code field is
`claude_failed`, and the synthesis stage is not invoked (the result does
not depend on the synthesis component). -/
theorem generation_failure_emits_claude_failed
    (pipe pipe2 : Pipeline) (api : List HistMsg → Except String String)
    (b : AudioBuffer) (claude : ClaudeService) (elapsed : ℚ) (t e : String)
    (h1 : pipe.whisper b.get_audio = Except.ok t)
    (h2 : (claude.get_response api t).1 = Except.error e) :
    (process_audio_buffer pipe api b claude elapsed).1 =
      [Event.transcription t, Event.error "claude_failed" "AI response failed"] ∧
    ((process_audio_buffer pipe api b claude elapsed).1.countP Event.isTerminal) = 1 ∧
    (pipe2.whisper = pipe.whisper →
      process_audio_buffer pipe2 api b claude elapsed
        = process_audio_buffer pipe api b claude elapsed) := by
  have key : ∀ p : Pipeline, p.whisper = pipe.whisper →
      process_audio_buffer p api b claude elapsed =
        ([Event.transcription t, Event.error "claude_failed" "AI response failed"],
         b.clear, (claude.get_response api t).2) := by
    intro p hw
    unfold process_audio_buffer
    rw [hw]
    simp only [h1]
    cases hgr : claude.get_response api t with
    | mk res c2 =>
      rw [hgr] at h2
      simp only at h2
      subst h2
      simp only [hgr]
  have k1 := key pipe rfl
  refine ⟨by rw [k1], by rw [k1]; rfl, fun hw => ?_⟩
  rw [key pipe2 hw, k1]

/-- C3 amended witness: concrete failing generation. -/
theorem generation_failure_emits_claude_failed_witness :
    (process_audio_buffer
        ⟨fun _ => Except.ok "hey", fun _ => Except.error "never used"⟩
        (fun _ => Except.error "api down")
        (AudioBuffer.mkBuffer 5 16000) (ClaudeService.mkService "k" "m") 0).1 =
      [Event.transcription "hey", Event.error "claude_failed" "AI response failed"] :=
  (generation_failure_emits_claude_failed
    ⟨fun _ => Except.ok "hey", fun _ => Except.error "never used"⟩
    ⟨fun _ => Except.ok "hey", fun _ => Except.ok []⟩
    (fun _ => Except.error "api down")
    (AudioBuffer.mkBuffer 5 16000) (ClaudeService.mkService "k" "m") 0
    "hey" "RuntimeError: Claude API call failed: api down" rfl rfl).1

/-- C7 counterexample: in the active receive loop, a text frame whose
payload is not valid JSON does not close the connection — the step keeps
the session open with no event, and a later `ping` frame is still
processed (the loop ends with no close code).  The claimed immediate close
is refuted at this concrete input. -/
theorem invalid_json_ignored_counterexample :
    (voice_chat_step
        ⟨fun _ => Except.error "w", fun _ => Except.error "s"⟩
        (fun _ => Except.error "a") 0
        (fun s => if s = "PING" then some (Json.obj [("type", Json.str "ping")]) else none)
        ⟨AudioBuffer.mkBuffer 5 16000, ClaudeService.mkService "k" "m"⟩
        (Frame.text "not json") =
      StepResult.next [] ⟨AudioBuffer.mkBuffer 5 16000, ClaudeService.mkService "k" "m"⟩) ∧
    (voice_chat_loop
        ⟨fun _ => Except.error "w", fun _ => Except.error "s"⟩
        (fun _ => Except.error "a") 0
        (fun s => if s = "PING" then some (Json.obj [("type", Json.str "ping")]) else none)
        ⟨AudioBuffer.mkBuffer 5 16000, ClaudeService.mkService "k" "m"⟩
        [Frame.text "not json", Frame.text "PING"] =
      ([Event.pong], ⟨AudioBuffer.mkBuffer 5 16000, ClaudeService.mkService "k" "m"⟩,
       none)) := by
  constructor <;> rfl

/-- C7 amended: a non-empty text frame received while the session is
active whose payload fails JSON parsing is logged and otherwise ignored —
no event is emitted, the loop state is unchanged, and the connection is
not closed (the loop continues with subsequent frames). -/
theorem invalid_json_text_frame_is_ignored
    (pipe : Pipeline) (api : List HistMsg → Except String String) (elapsed : ℚ)
    (parseJson : String → Option Json) (st : LoopState) (s : String)
    (hs : ¬ s = "") (hp : parseJson s = none) :
    voice_chat_step pipe api elapsed parseJson st (Frame.text s)
      = StepResult.next [] st := by
  simp only [voice_chat_step]
  rw [if_neg hs]
  simp only [hp]

/-- C7 amended witness. -/
theorem invalid_json_text_frame_is_ignored_witness :
    voice_chat_step
        ⟨fun _ => Except.error "w", fun _ => Except.error "s"⟩
        (fun _ => Except.error "a") 0 (fun _ => none)
        ⟨AudioBuffer.mkBuffer 5 16000, ClaudeService.mkService "k" "m"⟩
        (Frame.text "oops")
      = StepResult.next []
          ⟨AudioBuffer.mkBuffer 5 16000, ClaudeService.mkService "k" "m"⟩ :=
  invalid_json_text_frame_is_ignored
    ⟨fun _ => Except.error "w", fun _ => Except.error "s"⟩
    (fun _ => Except.error "a") 0 (fun _ => none)
    ⟨AudioBuffer.mkBuffer 5 16000, ClaudeService.mkService "k" "m"⟩
    "oops" (by decide) rfl

/-- C4 counterexample: a binary first frame (a wrong frame shape) makes
`receive_json` raise, which the endpoint's outer handler answers with a
server-error close — not the claimed policy-violation signal. -/
theorem handshake_binary_frame_counterexample :
    websocket_auth (fun _ => none) (fun _ => none) ⟨"sec", none⟩ 0 (Frame.binary [0])
      = HandshakeResult.closed CloseCode.serverError (some "Internal error") ∧
    CloseCode.serverError ≠ CloseCode.policyViolation := by
  refine ⟨rfl, by decide⟩

/-- C4 amended: a first message that is a parsed JSON object with a
missing or falsy `token`, or whose token fails decoding or verification —
including a truthy non-string token value, which PyJWT rejects as a
decode error — closes the connection immediately with a policy-violation
signal; a first message that is not a parseable JSON object (binary frame,
invalid JSON, or non-object JSON) closes immediately with a server-error
signal; in every closed case the endpoint processes no further frames
(its result is independent of the remaining frames and leaves the server
state untouched). -/
theorem handshake_rejection_behaviour
    (parseJson : String → Option Json) (parseToken : String → Option SignedToken)
    (ring : KeyRing) (now : ℤ) :
    (∀ data : List ℕ,
      websocket_auth parseJson parseToken ring now (Frame.binary data)
        = HandshakeResult.closed CloseCode.serverError (some "Internal error")) ∧
    (∀ s : String, parseJson s = none →
      websocket_auth parseJson parseToken ring now (Frame.text s)
        = HandshakeResult.closed CloseCode.serverError (some "Internal error")) ∧
    (∀ (s ss : String), parseJson s = some (Json.str ss) →
      websocket_auth parseJson parseToken ring now (Frame.text s)
        = HandshakeResult.closed CloseCode.serverError (some "Internal error")) ∧
    (∀ (s : String) (es : List Json), parseJson s = some (Json.arr es) →
      websocket_auth parseJson parseToken ring now (Frame.text s)
        = HandshakeResult.closed CloseCode.serverError (some "Internal error")) ∧
    (∀ (s : String) (fields : List (String × Json)),
      parseJson s = some (Json.obj fields) →
      Json.get fields "token" = none →
      websocket_auth parseJson parseToken ring now (Frame.text s)
        = HandshakeResult.closed CloseCode.policyViolation (some "No token")) ∧
    (∀ (s : String) (fields : List (String × Json)) (v : Json),
      parseJson s = some (Json.obj fields) →
      Json.get fields "token" = some v → v.truthy = false →
      websocket_auth parseJson parseToken ring now (Frame.text s)
        = HandshakeResult.closed CloseCode.policyViolation (some "No token")) ∧
    (∀ (s : String) (v : Json) (fields : List (String × Json)),
      parseJson s = some (Json.obj fields) →
      Json.get fields "token" = some v → v.truthy = true →
      (∀ t : String, ¬ v = Json.str t) →
      websocket_auth parseJson parseToken ring now (Frame.text s)
        = HandshakeResult.closed CloseCode.policyViolation (some "Invalid token")) ∧
    (∀ (s t : String) (fields : List (String × Json)),
      parseJson s = some (Json.obj fields) →
      Json.get fields "token" = some (Json.str t) → ¬ t = "" →
      parseToken t = none →
      websocket_auth parseJson parseToken ring now (Frame.text s)
        = HandshakeResult.closed CloseCode.policyViolation (some "Invalid token")) ∧
    (∀ (s t : String) (fields : List (String × Json)) (tok : SignedToken)
        (err : TokenManager.VerifyError),
      parseJson s = some (Json.obj fields) →
      Json.get fields "token" = some (Json.str t) → ¬ t = "" →
      parseToken t = some tok →
      TokenManager.verify_access_token ring tok now = Except.error err →
      websocket_auth parseJson parseToken ring now (Frame.text s)
        = HandshakeResult.closed CloseCode.policyViolation (some "Invalid token")) ∧
    (∀ (first : Frame) (code : CloseCode) (reason : Option String),
      websocket_auth parseJson parseToken ring now first
        = HandshakeResult.closed code reason →
      ∀ (pipe : Pipeline) (api : List HistMsg → Except String String) (elapsed : ℚ)
        (k m : String) (server : ServerState) (rest rest2 : List Frame),
        websocket_voice_chat parseJson parseToken ring now pipe api elapsed k m
            server first rest = ([], some code, server) ∧
        websocket_voice_chat parseJson parseToken ring now pipe api elapsed k m
            server first rest
          = websocket_voice_chat parseJson parseToken ring now pipe api elapsed k m
              server first rest2) := by
  refine ⟨fun data => rfl, ?_, ?_, ?_, ?_, ?_, ?_, ?_, ?_, ?_⟩
  · intro s hp
    unfold websocket_auth
    simp only [hp]
  · intro s ss hp
    unfold websocket_auth
    simp only [hp]
  · intro s es hp
    unfold websocket_auth
    simp only [hp]
  · intro s fields hp hget
    unfold websocket_auth
    simp only [hp, hget]
  · intro s fields v hp hget hfalse
    unfold websocket_auth
    simp only [hp, hget, hfalse]
    cases v with
    | obj f => simp
    | str sv => simp
    | arr el => simp
  · intro s v fields hp hget htr hns
    cases v with
    | str sv => exact absurd rfl (hns sv)
    | obj f =>
      unfold websocket_auth
      simp [hp, hget, htr]
    | arr el =>
      unfold websocket_auth
      simp [hp, hget, htr]
  · intro s t fields hp hget ht hpt
    unfold websocket_auth
    simp only [hp, hget, Json.truthy, ht]
    simp only [hpt]
    simp [ht]
  · intro s t fields tok err hp hget ht hpt hv
    unfold websocket_auth
    simp only [hp, hget, Json.truthy, ht]
    simp only [hpt]
    simp only [TokenManager.verify_access_token] at hv ⊢
    cases hvt : TokenManager.verifyToken ring tok now "access" with
    | error e => rfl
    | ok p => rw [hvt] at hv; simp [Except.map] at hv
  · intro first code reason hclosed pipe api elapsed k m server rest rest2
    constructor
    · unfold websocket_voice_chat
      simp only [hclosed]
    · unfold websocket_voice_chat
      simp only [hclosed]

/-- C4 amended witness: a structured first message with no token closes
with policy-violation and the endpoint then ignores any further frames;
a truthy non-string token value closes with policy-violation
`Invalid token`. -/
theorem handshake_rejection_behaviour_witness :
    websocket_auth (fun _ => some (Json.obj [])) (fun _ => none) ⟨"sec", none⟩ 0
        (Frame.text "{}")
      = HandshakeResult.closed CloseCode.policyViolation (some "No token") ∧
    websocket_voice_chat (fun _ => some (Json.obj [])) (fun _ => none) ⟨"sec", none⟩ 0
        ⟨fun _ => Except.error "w", fun _ => Except.error "s"⟩
        (fun _ => Except.error "a") 0 "k" "m" ⟨none⟩ (Frame.text "{}")
        [Frame.binary [1, 2, 3]]
      = ([], some CloseCode.policyViolation, ⟨none⟩) ∧
    websocket_auth
        (fun _ => some (Json.obj [("token", Json.obj [("x", Json.str "y")])]))
        (fun _ => none) ⟨"sec", none⟩ 0 (Frame.text "{}")
      = HandshakeResult.closed CloseCode.policyViolation (some "Invalid token") :=
  have h := handshake_rejection_behaviour (fun _ => some (Json.obj []))
    (fun _ => none) ⟨"sec", none⟩ 0
  have h2 := handshake_rejection_behaviour
    (fun _ => some (Json.obj [("token", Json.obj [("x", Json.str "y")])]))
    (fun _ => none) ⟨"sec", none⟩ 0
  have hc := h.2.2.2.2.1 "{}" [] rfl rfl
  ⟨hc, (h.2.2.2.2.2.2.2.2.2 (Frame.text "{}") CloseCode.policyViolation
    (some "No token") hc
    ⟨fun _ => Except.error "w", fun _ => Except.error "s"⟩
    (fun _ => Except.error "a") 0 "k" "m" ⟨none⟩ [Frame.binary [1, 2, 3]] []).1,
   h2.2.2.2.2.2.2.1 "{}" (Json.obj [("x", Json.str "y")])
    [("token", Json.obj [("x", Json.str "y")])] rfl rfl rfl
    (fun _ heq => Json.noConfusion heq)⟩

theorem bufFix_not_ready : bufFix.is_ready = false := by
  rw [is_ready_iff_total _ rfl rfl]
  decide

theorem bufFix_duration_pos : bufFix.buffer_duration > 0 := by
  unfold bufFix AudioBuffer.buffer_duration AudioBuffer.bytes_per_second
  norm_num

/-- C2 counterexample: running the endpoint once from a fresh process
state (valid auth, one audio chunk, one flush, all stages succeeding)
leaves the process-global Claude service holding that conversation; a
second connection's `get_claude_service` then returns a service whose
conversation context already contains the first connection's turns — so a
new connection does not start with an empty conversation context, and
generation history is not exclusively the session's own. -/
theorem conversation_context_shared_counterexample :
    (get_claude_service "k" "m"
        (websocket_voice_chat pjFix ptFix ringFix 50 pipeFix apiFix 0 "k" "m"
          ⟨none⟩ (Frame.text "AUTH")
          [Frame.binary [0, 0], Frame.text "FLUSH"]).2.2).1.conversation_history
      = [⟨"user", "hello"⟩, ⟨"assistant", "reply"⟩] ∧
    ¬ (get_claude_service "k" "m"
        (websocket_voice_chat pjFix ptFix ringFix 50 pipeFix apiFix 0 "k" "m"
          ⟨none⟩ (Frame.text "AUTH")
          [Frame.binary [0, 0], Frame.text "FLUSH"]).2.2).1.conversation_history
      = [] := by
  have hs1 : voice_chat_step pipeFix apiFix 0 pjFix
      ⟨AudioBuffer.mkBuffer 5 16000, ClaudeService.mkService "k" "m"⟩
      (Frame.binary [0, 0])
      = StepResult.next [Event.buffering bufFix.buffer_duration 5]
          ⟨bufFix, ClaudeService.mkService "k" "m"⟩ := by
    have hnr : (⟨5, 16000, [[0, 0]], 2⟩ : AudioBuffer).is_ready = false :=
      bufFix_not_ready
    simp [voice_chat_step, AudioBuffer.mkBuffer, AudioBuffer.add_chunk, bufFix, hnr]
  have hs2 : voice_chat_step pipeFix apiFix 0 pjFix
      ⟨bufFix, ClaudeService.mkService "k" "m"⟩ (Frame.text "FLUSH")
      = StepResult.next
          [Event.transcription "hello", Event.response "reply" (some [1]) (some 0)]
          ⟨⟨5, 16000, [], 0⟩, ⟨"k", "m", [⟨"user", "hello"⟩, ⟨"assistant", "reply"⟩]⟩⟩ := by
    have hdp : (⟨5, 16000, [[0, 0]], 2⟩ : AudioBuffer).buffer_duration > 0 :=
      bufFix_duration_pos
    have hwsf : ("hello".data.all Char.isWhitespace) = false := rfl
    simp [voice_chat_step, pjFix, Json.get, bufFix, hdp, process_audio_buffer,
      AudioBuffer.get_audio, AudioBuffer.clear, pipeFix, apiFix,
      ClaudeService.get_response, ClaudeService.add_to_history,
      ClaudeService.mkService, hwsf]
  have hloop : voice_chat_loop pipeFix apiFix 0 pjFix
      ⟨AudioBuffer.mkBuffer 5 16000, ClaudeService.mkService "k" "m"⟩
      [Frame.binary [0, 0], Frame.text "FLUSH"]
      = ([Event.buffering bufFix.buffer_duration 5, Event.transcription "hello",
          Event.response "reply" (some [1]) (some 0)],
         ⟨⟨5, 16000, [], 0⟩, ⟨"k", "m", [⟨"user", "hello"⟩, ⟨"assistant", "reply"⟩]⟩⟩,
         none) := by
    simp only [voice_chat_loop, hs1, hs2]
    rfl
  have hws : websocket_voice_chat pjFix ptFix ringFix 50 pipeFix apiFix 0 "k" "m"
      ⟨none⟩ (Frame.text "AUTH") [Frame.binary [0, 0], Frame.text "FLUSH"]
      = ([Event.buffering bufFix.buffer_duration 5, Event.transcription "hello",
          Event.response "reply" (some [1]) (some 0)], none,
         ⟨some ⟨"k", "m", [⟨"user", "hello"⟩, ⟨"assistant", "reply"⟩]⟩⟩) := by
    have hauth : websocket_auth pjFix ptFix ringFix 50 (Frame.text "AUTH")
        = HandshakeResult.authenticated "u@example.com" := rfl
    simp only [websocket_voice_chat, hauth, get_claude_service, hloop]
  rw [hws]
  exact ⟨rfl, by decide⟩

/-- C2 amended: the Claude service is a process-global, lazily created
singleton: when the global already holds a service, every new connection
receives exactly that instance with its accumulated history (shared across
connections); only when the global is still empty is a fresh service with
an empty conversation context created and stored. -/
theorem claude_service_is_process_singleton
    (k m : String) (s : ServerState) :
    ((get_claude_service k m s).2.claude_service = some (get_claude_service k m s).1) ∧
    (∀ c : ClaudeService, s.claude_service = some c →
      get_claude_service k m s = (c, s)) ∧
    (s.claude_service = none →
      get_claude_service k m s
        = (ClaudeService.mkService k m, ⟨some (ClaudeService.mkService k m)⟩) ∧
      (get_claude_service k m s).1.conversation_history = []) := by
  cases s with
  | mk o =>
    cases o with
    | none =>
      refine ⟨rfl, ?_, fun _ => ⟨rfl, rfl⟩⟩
      intro c hc
      cases hc
    | some c0 =>
      refine ⟨rfl, ?_, ?_⟩
      · intro c hc
        injection hc with h
        subst h
        rfl
      · intro h
        cases h

/-- C2 amended witness: a fresh process state yields a fresh service, and
a populated one is returned as-is. -/
theorem claude_service_is_process_singleton_witness :
    get_claude_service "k" "m" ⟨none⟩
      = (ClaudeService.mkService "k" "m", ⟨some (ClaudeService.mkService "k" "m")⟩) ∧
    get_claude_service "k" "m" ⟨some ⟨"k", "m", [⟨"user", "x"⟩]⟩⟩
      = (⟨"k", "m", [⟨"user", "x"⟩]⟩, ⟨some ⟨"k", "m", [⟨"user", "x"⟩]⟩⟩) :=
  ⟨((claude_service_is_process_singleton "k" "m" ⟨none⟩).2.2 rfl).1,
   (claude_service_is_process_singleton "k" "m"
     ⟨some ⟨"k", "m", [⟨"user", "x"⟩]⟩⟩).2.1 ⟨"k", "m", [⟨"user", "x"⟩]⟩ rfl⟩

end VoiceChat
